import Mathlib

/-!
Shallow embedding of the attendance logic of the Facial-Attendance-System
frontend, translated from
`frontend/src/utils/attendanceUtils.js` (the attendance store object
`manageFaceRecognitionList` with `setUserEmail`, `addFace`,
`getTodaysFaces`, `deleteAttendance`, `cleanupOldData`) and
`frontend/src/components/CameraInterface.js` (the periodic
`captureAndRecognize` loop with its throttle refs).

Modelling conventions:
* JavaScript strings that may be absent (a missing object property or a
  `localStorage.getItem` returning null) are `Option String`; the empty
  string is falsy in JS, which `jsTruthy` captures.
* Calendar-date partition keys (the ISO date strings produced by
  `toISOString().split("T")[0]`) are represented by the epoch-millisecond
  value of the date at midnight, which is exactly what `new Date(dateString)`
  evaluates to in `cleanupOldData`; entry timestamps are epoch milliseconds.
* A JS object used as a string-keyed map (the parsed `attendanceData_<email>`
  value) is an insertion-ordered association list `Obj`; `localStorage`
  itself is the `LocalStorage` structure, with the per-email attendance maps
  as a total function (a missing key parses to the empty object, i.e. `[]`).
* `axios` behaviour: a network failure or a non-2xx response makes the
  awaited call throw, which the surrounding try/catch turns into the failure
  return; a resolved call carries the HTTP status and the `status` field of
  the response body.
* Functions that end without an explicit `return` yield `undefined`, which is
  modelled as `none` in an `Option` result component.
-/

/-- JS truthiness of a possibly-absent string: `null`/`undefined` and the
empty string are falsy. -/
def jsTruthy : Option String → Bool
  | none => false
  | some s => s != ""

/-- The JS idiom `x || d` on a possibly-absent string. -/
def jsOr (o : Option String) (d : String) : String :=
  if jsTruthy o then o.getD "" else d

/-- A recognized-face object as received from the recognizer or passed to
`addFace`; every property may be absent. -/
structure RecognizedFace where
  name : Option String := none
  roll_number : Option String := none
  confidence : Option ℚ := none
  status : Option String := none
deriving DecidableEq, Repr

/-- A stored attendance entry, as built in `addFace` by spreading the input
face and overriding `timestamp`, `confidence` and `status`. -/
structure Entry where
  name : String
  roll_number : String
  timestamp : Nat
  confidence : ℚ
  status : String
deriving DecidableEq, Repr

/-- A day-partition key: the epoch-millisecond value of the calendar date at
midnight (the value `new Date` gives the ISO date string). -/
abbrev DayKey := Nat

/-- The parsed per-user attendance object: an insertion-ordered association
list from day keys to partitions, mirroring a JS object literal. -/
abbrev Obj := List (DayKey × List Entry)

/-- Property read `m[k]` on a JS object: the first binding of the key. -/
def Obj.get (m : Obj) (k : DayKey) : Option (List Entry) :=
  (m.find? (fun p => p.1 == k)).map (fun p => p.2)

/-- Property write `m[k] = v` on a JS object: updates the binding in place
if the key exists, otherwise appends it at the end (JS insertion order). -/
def Obj.set (m : Obj) (k : DayKey) (v : List Entry) : Obj :=
  match m with
  | [] => [(k, v)]
  | p :: rest => if p.1 == k then (k, v) :: rest else p :: Obj.set rest k v

/-- `Object.keys(m)`, in insertion order. -/
def Obj.keys (m : Obj) : List DayKey :=
  m.map (fun p => p.1)

/-- The durable browser storage as read by the attendance code: the email of
the stored `user` object (when present and truthy), the `user_email` key, the
`token` key, and the parsed `attendanceData_<email>` map for every email (a
missing key parses to the empty object `[]`). -/
structure LocalStorage where
  user : Option String
  user_email : Option String
  token : Option String
  attendance : String → Obj

/-- `setUserEmail`: copies the email of the stored user object into the
`user_email` key and returns it, or returns null when no user email exists. -/
def setUserEmail (ls : LocalStorage) : Option String × LocalStorage :=
  if jsTruthy ls.user then
    (ls.user, { ls with user_email := ls.user })
  else
    (none, ls)

/-- The email-resolution prelude of `addFace`: read `user_email` and fall
back to `setUserEmail` when it is falsy. -/
def resolveUserEmail (ls : LocalStorage) : Option String × LocalStorage :=
  if jsTruthy ls.user_email then (ls.user_email, ls)
  else setUserEmail ls

/-- The input-validation guard of `addFace`:
`!recognizedFace || !recognizedFace.name || !recognizedFace.roll_number`. -/
def validAddInput : Option RecognizedFace → Bool
  | none => false
  | some f => jsTruthy f.name && jsTruthy f.roll_number

/-- The duplicate test of `addFace`: some stored face matches the input on
roll number or on name. -/
def isDuplicateIn (part : List Entry) (f : RecognizedFace) : Bool :=
  part.any (fun e =>
    e.roll_number == f.roll_number.getD "" || e.name == f.name.getD "")

/-- The new entry built by `addFace`: the spread input with `timestamp` set
to now, `confidence || 0` and `status || "Recognized"`. -/
def mkEntry (nowTs : Nat) (f : RecognizedFace) : Entry :=
  { name := f.name.getD ""
    roll_number := f.roll_number.getD ""
    timestamp := nowTs
    confidence := f.confidence.getD 0
    status := jsOr f.status "Recognized" }

/-- Push the entry, then truncate to the last 50 entries when the partition
exceeds 50 (`slice(-50)`). -/
def addToPartition (e : Entry) (part : List Entry) : List Entry :=
  let part2 := part ++ [e]
  if 50 < part2.length then part2.drop (part2.length - 50) else part2

/-- The ambient dates of one `addFace` call: the partition key of the current
calendar date and the current time used for the entry timestamp. -/
structure AddEnv where
  todayKey : DayKey
  nowTs : Nat

/-- `addFace`: validate the input, resolve the owning user email, skip on a
name-or-roll duplicate in the partition of today, otherwise append (with the
50-entry cap) and persist; returns the new entry or `undefined`. -/
def addFace (env : AddEnv) (rf : Option RecognizedFace) (ls : LocalStorage) :
    Option Entry × LocalStorage :=
  if !(validAddInput rf) then (none, ls)
  else
    let f := rf.getD {}
    let ue := (resolveUserEmail ls).1
    let ls1 := (resolveUserEmail ls).2
    if !(jsTruthy ue) then (none, ls1)
    else
      let email := ue.getD ""
      let stored := ls1.attendance email
      let part := (stored.get env.todayKey).getD []
      if isDuplicateIn part f then (none, ls1)
      else
        let e := mkEntry env.nowTs f
        let stored2 := stored.set env.todayKey (addToPartition e part)
        (some e,
          { ls1 with
              attendance := fun x => if x = email then stored2 else ls1.attendance x })

/-- The sort order used by `getTodaysFaces`: most recent timestamp first. -/
def tsDesc (a b : Entry) : Prop := b.timestamp ≤ a.timestamp

instance : DecidableRel tsDesc := fun a b =>
  inferInstanceAs (Decidable (b.timestamp ≤ a.timestamp))

instance : IsTotal Entry tsDesc := ⟨fun a b => Nat.le_total b.timestamp a.timestamp⟩

instance : IsTrans Entry tsDesc := ⟨fun _ _ _ h1 h2 => Nat.le_trans h2 h1⟩

/-- The `sort((a, b) => new Date(b.timestamp) - new Date(a.timestamp))` call:
a sort of the partition by timestamp descending. -/
def sortByTimestampDesc (l : List Entry) : List Entry :=
  l.insertionSort tsDesc

/-- The partition of today for the current user, as `getTodaysFaces` reads
it (empty when no user email is set or the key is absent). -/
def todaysPartition (today : DayKey) (ls : LocalStorage) : List Entry :=
  if jsTruthy ls.user_email then
    ((ls.attendance (ls.user_email.getD "")).get today).getD []
  else []

/-- `getTodaysFaces`: returns the partition of today sorted most recent
first; returns the empty list when no user email is set. The storage is only
read, never written. -/
def getTodaysFaces (today : DayKey) (ls : LocalStorage) :
    List Entry × LocalStorage :=
  if jsTruthy ls.user_email then
    let email := ls.user_email.getD ""
    let part := ((ls.attendance email).get today).getD []
    (sortByTimestampDesc part, ls)
  else ([], ls)

/-- The observable behaviour of the awaited remote deletion call: either the
await throws (network failure, timeout, or a non-2xx response rejected by
axios), or it resolves with an HTTP status and the `status` field of the
response body. -/
inductive RemoteDeleteOutcome where
  | throws : RemoteDeleteOutcome
  | resolves (httpStatus : Nat) (dataStatus : Option String) : RemoteDeleteOutcome
deriving DecidableEq, Repr

/-- The success test applied by `deleteAttendance` to a remote outcome: the
call resolved and `response.data.status === "success" || response.status === 200`. -/
def remoteDeleteSucceeded : RemoteDeleteOutcome → Bool
  | .throws => false
  | .resolves s ds => ds == some "success" || s == 200

/-- `deleteAttendance`: validate the roll number and the session, call the
remote deletion endpoint, and only on a confirmed success filter the roll
number out of the partition of today and persist; every failure path returns
false with the storage untouched. -/
def deleteAttendance (today : DayKey) (remote : RemoteDeleteOutcome)
    (rollNumber : String) (ls : LocalStorage) : Bool × LocalStorage :=
  if rollNumber == "" then (false, ls)
  else if !(jsTruthy ls.user_email) || !(jsTruthy ls.token) then (false, ls)
  else
    match remote with
    | .throws => (false, ls)
    | .resolves s ds =>
      if ds == some "success" || s == 200 then
        let email := ls.user_email.getD ""
        let stored := ls.attendance email
        match stored.get today with
        | some part =>
          let part2 := part.filter (fun e => e.roll_number != rollNumber)
          let stored2 := stored.set today part2
          (true,
            { ls with
                attendance := fun x => if x = email then stored2 else ls.attendance x })
        | none => (true, ls)
      else (false, ls)

/-- Milliseconds per day, the `1000 * 3600 * 24` divisor of `cleanupOldData`. -/
def msPerDay : Nat := 86400000

/-- The removal test of `cleanupOldData`:
`(today - new Date(date)) / (1000*3600*24) > daysToKeep`, evaluated exactly
over the integers (the divisor is positive, so the real-valued comparison is
equivalent to the product form). -/
def staleDay (nowMs : Nat) (daysToKeep : Nat) (d : DayKey) : Bool :=
  (daysToKeep : Int) * (msPerDay : Int) < (nowMs : Int) - (d : Int)

/-- `cleanupOldData`: for the current user, delete every day-partition whose
date is more than `daysToKeep` days before now, and persist the remaining
map. The function counts the removed dates but only logs the count; it ends
without a `return`, so its value is `undefined` (`none`). -/
def cleanupOldData (nowMs : Nat) (daysToKeep : Nat) (ls : LocalStorage) :
    Option Nat × LocalStorage :=
  if !(jsTruthy ls.user_email) then (none, ls)
  else
    let email := ls.user_email.getD ""
    let stored := ls.attendance email
    let stored2 := stored.filter (fun p => !(staleDay nowMs daysToKeep p.1))
    (none,
      { ls with
          attendance := fun x => if x = email then stored2 else ls.attendance x })

/-- The two throttle refs of `CameraInterface`: `lastRecognitionRef` and
`isRecognizingRef`. -/
structure ThrottleState where
  lastAttemptAt : Nat
  inFlight : Bool
deriving DecidableEq, Repr

/-- The observable behaviour of the awaited `/recognize` call: a resolved
response whose body is a JSON array of faces, a resolved response with a
non-array body, a rejection carrying a response (server error body with a
status tag and message), a rejection with no response (network failure or
timeout), or a failure to set the request up at all. -/
inductive RecognizeRemote where
  | arrayData (faces : List RecognizedFace) : RecognizeRemote
  | otherData : RecognizeRemote
  | httpError (statusTag : Option String) (msg : Option String) : RecognizeRemote
  | requestError : RecognizeRemote
  | setupError : RecognizeRemote
deriving DecidableEq, Repr

/-- The distinguishable outcomes of one `captureAndRecognize` invocation. -/
inductive CaptureOutcome where
  | deniedInFlight : CaptureOutcome
  | deniedTooSoon : CaptureOutcome
  | deniedNoWebcam : CaptureOutcome
  | captureFailed : CaptureOutcome
  | unauthenticated : CaptureOutcome
  | recognized (n : Nat) : CaptureOutcome
  | ignoredNonArray : CaptureOutcome
  | serverError (statusTag : Option String) (msg : Option String) : CaptureOutcome
  | noResponse : CaptureOutcome
  | requestSetupError : CaptureOutcome
deriving DecidableEq, Repr

/-- The denial outcomes: the early returns before the try block is entered. -/
def CaptureOutcome.isDenied : CaptureOutcome → Bool
  | .deniedInFlight => true
  | .deniedTooSoon => true
  | .deniedNoWebcam => true
  | _ => false

/-- The environment of one `captureAndRecognize` invocation: the value of
`Date.now()` at entry, whether the webcam ref and the screenshot are
available, the remote behaviour, and the partition key of today. -/
structure CaptureEnv where
  now : Nat
  webcamPresent : Bool
  screenshotOk : Bool
  remote : RecognizeRemote
  todayKey : DayKey

/-- The result of one `captureAndRecognize` invocation: the outcome, the
throttle refs after the finally block, the storage, and how many calls were
made to the remote recognizer. -/
structure CaptureResult where
  outcome : CaptureOutcome
  throttle : ThrottleState
  store : LocalStorage
  netCalls : Nat

/-- The per-face mapping applied to each element of an array response before
`addFace` is called: `name || "Unknown"`, `roll_number || ""`,
`confidence || 0`, `status || "Unknown"`. -/
def mapRecognitionData (d : RecognizedFace) : RecognizedFace :=
  { name := some (jsOr d.name "Unknown")
    roll_number := some (jsOr d.roll_number "")
    confidence := some (d.confidence.getD 0)
    status := some (jsOr d.status "Unknown") }

/-- `captureAndRecognize`: deny when an attempt is in flight, when fewer than
10000 ms elapsed since the last successful submission, or when the webcam ref
is null; otherwise set the in-flight flag, capture, require the auth token
before any network call, call the recognizer, fold the array response into
the store via `addFace`, and record the attempt time only on that success
path; the finally block clears the in-flight flag on every completed path. -/
def captureAndRecognize (env : CaptureEnv) (ts : ThrottleState)
    (ls : LocalStorage) : CaptureResult :=
  if ts.inFlight then ⟨.deniedInFlight, ts, ls, 0⟩
  else if (env.now : Int) - (ts.lastAttemptAt : Int) < 10000 then
    ⟨.deniedTooSoon, ts, ls, 0⟩
  else if !env.webcamPresent then ⟨.deniedNoWebcam, ts, ls, 0⟩
  else
    if !env.screenshotOk then
      ⟨.captureFailed, { ts with inFlight := false }, ls, 0⟩
    else if !(jsTruthy ls.token) then
      ⟨.unauthenticated, { ts with inFlight := false }, ls, 0⟩
    else
      match env.remote with
      | .arrayData faces =>
        let ls2 := faces.foldl
          (fun acc d =>
            (addFace ⟨env.todayKey, env.now⟩ (some (mapRecognitionData d)) acc).2)
          ls
        ⟨.recognized faces.length,
          { lastAttemptAt := env.now, inFlight := false }, ls2, 1⟩
      | .otherData =>
        ⟨.ignoredNonArray, { ts with inFlight := false }, ls, 1⟩
      | .httpError st msg =>
        ⟨.serverError st msg, { ts with inFlight := false }, ls, 1⟩
      | .requestError =>
        ⟨.noResponse, { ts with inFlight := false }, ls, 1⟩
      | .setupError =>
        ⟨.requestSetupError, { ts with inFlight := false }, ls, 0⟩

/-- The Capture Throttle contract `tryAcquire(now)`, as realized by the two
guard lines of `captureAndRecognize`: deny when an attempt is in flight, deny
when fewer than 10000 ms elapsed since `lastAttemptAt`. -/
def tryAcquire (ts : ThrottleState) (now : Nat) : Bool :=
  if ts.inFlight then false
  else if (now : Int) - (ts.lastAttemptAt : Int) < 10000 then false
  else true

/-- No two entries of a partition share a roll number, and no two share a
name. -/
def PartitionNoDup (l : List Entry) : Prop :=
  l.Pairwise (fun a b => a.roll_number ≠ b.roll_number ∧ a.name ≠ b.name)

/-- Every partition of every user satisfies `PartitionNoDup`. -/
def StoreNoDup (ls : LocalStorage) : Prop :=
  ∀ (e : String) (k : DayKey), PartitionNoDup (((ls.attendance e).get k).getD [])

/-- Every partition of every user holds at most 50 entries. -/
def StoreCapped (ls : LocalStorage) : Prop :=
  ∀ (e : String) (k : DayKey), (((ls.attendance e).get k).getD []).length ≤ 50

/-- A sequence of `addFace` calls within one calendar day: the partition key
is fixed, each call brings its own clock value and input. -/
def addSeq (day : DayKey) (calls : List (Nat × Option RecognizedFace))
    (ls : LocalStorage) : LocalStorage :=
  calls.foldl (fun acc c => (addFace ⟨day, c.1⟩ c.2 acc).2) ls

/-! ## Helper lemmas about the JS-object model -/

theorem Obj.get_nil (k : DayKey) : Obj.get [] k = none := rfl

theorem Obj.get_cons (p : DayKey × List Entry) (m : Obj) (k : DayKey) :
    Obj.get (p :: m) k = if p.1 == k then some p.2 else Obj.get m k := by
  by_cases h : p.1 == k <;> simp [Obj.get, List.find?, h]

theorem Obj.get_set_self (m : Obj) (k : DayKey) (v : List Entry) :
    Obj.get (Obj.set m k v) k = some v := by
  induction m with
  | nil => simp [Obj.set, Obj.get_cons]
  | cons p rest ih =>
    by_cases h : p.1 == k
    · simp [Obj.set, h, Obj.get_cons]
    · simp [Obj.set, h, Obj.get_cons, ih]

theorem Obj.get_set_ne (m : Obj) (k : DayKey) (v : List Entry) (d : DayKey)
    (hd : d ≠ k) : Obj.get (Obj.set m k v) d = Obj.get m d := by
  induction m with
  | nil =>
    have : (k == d) = false := by simpa using fun h => hd h.symm
    simp [Obj.set, Obj.get_cons, this]
  | cons p rest ih =>
    by_cases h : p.1 == k
    · have hp : (p.1 == d) = false := by
        have hk : p.1 = k := by simpa using h
        simpa [hk] using fun h2 => hd h2.symm
      have hkd : (k == d) = false := by simpa using fun h2 => hd h2.symm
      simp [Obj.set, h, Obj.get_cons, hp, hkd]
    · by_cases hp : p.1 == d
      · simp [Obj.set, h, Obj.get_cons, hp]
      · simp [Obj.set, h, Obj.get_cons, hp, ih]

theorem Obj.get_filter_keep (m : Obj) (keep : DayKey → Bool) (d : DayKey) :
    Obj.get (m.filter (fun p => keep p.1)) d =
      if keep d then Obj.get m d else none := by
  induction m with
  | nil => simp [Obj.get]
  | cons p rest ih =>
    by_cases hp : p.1 == d
    · have hpd : p.1 = d := by simpa using hp
      by_cases hk : keep d
      · simp [List.filter_cons, hpd, hk, Obj.get_cons]
      · simp [List.filter_cons, hpd, hk, ih]
    · by_cases hk : keep p.1
      · simp [List.filter_cons, hk, Obj.get_cons, hp, ih]
      · simp [List.filter_cons, hk, Obj.get_cons, hp, ih]

theorem Obj.get_filter_stale (m : Obj) (nowMs daysToKeep : Nat) (d : DayKey) :
    Obj.get (m.filter (fun p => !(staleDay nowMs daysToKeep p.1))) d =
      if staleDay nowMs daysToKeep d then none else Obj.get m d := by
  rw [Obj.get_filter_keep m (fun x => !(staleDay nowMs daysToKeep x)) d]
  by_cases h : staleDay nowMs daysToKeep d <;> simp [h]

/-! ## Helper lemmas about email resolution -/

theorem resolveUserEmail_attendance (ls : LocalStorage) :
    (resolveUserEmail ls).2.attendance = ls.attendance := by
  by_cases h1 : jsTruthy ls.user_email <;> by_cases h2 : jsTruthy ls.user <;>
    simp [resolveUserEmail, setUserEmail, h1, h2]

theorem resolveUserEmail_token (ls : LocalStorage) :
    (resolveUserEmail ls).2.token = ls.token := by
  by_cases h1 : jsTruthy ls.user_email <;> by_cases h2 : jsTruthy ls.user <;>
    simp [resolveUserEmail, setUserEmail, h1, h2]

/-! ## A characterization of `addFace` -/

theorem resolveUserEmail_truthy (ls : LocalStorage) (email : String)
    (h : (resolveUserEmail ls).1 = some email) : jsTruthy (some email) = true := by
  by_cases h1 : jsTruthy ls.user_email
  · have h3 : ls.user_email = some email := by
      simpa [resolveUserEmail, h1] using h
    rw [← h3]
    exact h1
  · by_cases h2 : jsTruthy ls.user
    · have h3 : ls.user = some email := by
        simpa [resolveUserEmail, setUserEmail, h1, h2] using h
      rw [← h3]
      exact h2
    · simp [resolveUserEmail, setUserEmail, h1, h2] at h

/-- What one `addFace` call does, split by its branches: either it leaves
every attendance map untouched and returns `undefined`, or the input was
valid, an owning email resolved, the partition of today had no name-or-roll
collision, and exactly that partition is extended (with the 50-entry cap)
while every other key keeps its value. -/
theorem addFace_spec (env : AddEnv) (rf : Option RecognizedFace)
    (ls : LocalStorage) :
    ((addFace env rf ls).1 = none ∧
     ((addFace env rf ls).2).attendance = ls.attendance) ∨
    (∃ f email,
       rf = some f ∧ validAddInput rf = true ∧
       (resolveUserEmail ls).1 = some email ∧
       isDuplicateIn (((ls.attendance email).get env.todayKey).getD []) f = false ∧
       (addFace env rf ls).1 = some (mkEntry env.nowTs f) ∧
       ((addFace env rf ls).2).attendance = fun x =>
         if x = email then
           Obj.set (ls.attendance email) env.todayKey
             (addToPartition (mkEntry env.nowTs f)
               (((ls.attendance email).get env.todayKey).getD []))
         else ls.attendance x) := by
  by_cases hv : validAddInput rf
  · cases rf with
    | none => simp [validAddInput] at hv
    | some f =>
      have hatt := resolveUserEmail_attendance ls
      rcases hue : (resolveUserEmail ls).1 with _ | email
      · left
        simp [addFace, hv, hue, jsTruthy, hatt]
      · have htrue : jsTruthy (some email) = true :=
          resolveUserEmail_truthy ls email hue
        by_cases hdup :
            isDuplicateIn (((ls.attendance email).get env.todayKey).getD []) f
        · left
          simp [addFace, hv, hue, htrue, hatt, hdup]
        · right
          refine ⟨f, email, rfl, hv, hue ▸ rfl, by simpa using hdup, ?_, ?_⟩ <;>
            simp [addFace, hv, hue, htrue, hatt, hdup]
  · left
    simp [addFace, hv]

/-! ## Shared concrete inputs for witnesses and scenarios -/

/-- A fresh logged-in storage: a resolved user email, a token, no attendance
data yet. -/
def lsScenario : LocalStorage :=
  { user := none
    user_email := some "user@example.com"
    token := some "tok"
    attendance := fun _ => [] }

/-- The first scenario input of the spec: Alice with roll number 1 and
confidence 0.9. -/
def faceAlice1 : RecognizedFace :=
  { name := some "Alice", roll_number := some "1", confidence := some 0.9,
    status := none }

/-- The second scenario input of the spec: Alice again, roll number 2. -/
def faceAlice2 : RecognizedFace :=
  { name := some "Alice", roll_number := some "2", confidence := none,
    status := none }

/-! ## Claim theorems -/

/-- C9: an `addFace` call whose argument is absent or lacks a truthy name or
a truthy roll number returns `undefined` without producing an entry, and the
whole persisted storage is exactly unchanged; the rejection happens before
the owning user or the day partition is resolved, so not even the
`user_email` key is written. -/
theorem claim9_addFace_invalid_input_noop (env : AddEnv)
    (rf : Option RecognizedFace) (ls : LocalStorage)
    (h : validAddInput rf = false) :
    addFace env rf ls = (none, ls) := by
  simp [addFace, h]

/-- Witness for C9: a face with a name but no roll number is rejected and
the storage value is untouched. -/
theorem claim9_witness :
    validAddInput (some { name := some "Alice" }) = false ∧
    addFace ⟨0, 0⟩ (some { name := some "Alice" }) lsScenario =
      (none, lsScenario) :=
  ⟨by decide,
   claim9_addFace_invalid_input_noop ⟨0, 0⟩ (some { name := some "Alice" })
     lsScenario (by decide)⟩

/-- C3: whenever the remote deletion call fails (the await throws on a
network failure or a non-2xx response, or the resolved response is not a
success), `deleteAttendance` reports failure and the local storage, hence the
result of `getTodaysFaces`, is exactly unchanged. -/
theorem claim3_deleteAttendance_remote_failure_noop (today : DayKey)
    (remote : RemoteDeleteOutcome) (roll : String) (ls : LocalStorage)
    (h : remoteDeleteSucceeded remote = false) :
    deleteAttendance today remote roll ls = (false, ls) ∧
    getTodaysFaces today (deleteAttendance today remote roll ls).2 =
      getTodaysFaces today ls := by
  have h1 : deleteAttendance today remote roll ls = (false, ls) := by
    by_cases h0 : roll == ""
    · simp [deleteAttendance, h0]
    · by_cases hs : (!(jsTruthy ls.user_email) || !(jsTruthy ls.token))
      · simp [deleteAttendance, h0, hs]
      · cases remote with
        | throws => simp [deleteAttendance, h0, hs]
        | resolves s ds =>
          have h2 : (ds == some "success" || s == 200) = false := by
            simpa [remoteDeleteSucceeded] using h
          simp [deleteAttendance, h0, hs, h2]
  exact ⟨h1, by rw [h1]⟩

/-- Witness for C3: a thrown remote call (network failure) leaves a concrete
storage untouched and reports failure. -/
theorem claim3_witness :
    remoteDeleteSucceeded .throws = false ∧
    deleteAttendance 0 .throws "1" lsScenario = (false, lsScenario) :=
  ⟨by decide,
   (claim3_deleteAttendance_remote_failure_noop 0 .throws "1" lsScenario
     (by decide)).1⟩

/-- C8: `getTodaysFaces` never writes the storage, returns a permutation of
the partition of today that is sorted by timestamp descending, and calling
it again returns the same result. -/
theorem claim8_listToday_sorted_nondestructive (today : DayKey)
    (ls : LocalStorage) :
    (getTodaysFaces today ls).2 = ls ∧
    ((getTodaysFaces today ls).1).Perm (todaysPartition today ls) ∧
    ((getTodaysFaces today ls).1).Pairwise tsDesc ∧
    getTodaysFaces today ((getTodaysFaces today ls).2) =
      getTodaysFaces today ls := by
  by_cases h : jsTruthy ls.user_email
  · refine ⟨by simp [getTodaysFaces, h], ?_, ?_, by simp [getTodaysFaces, h]⟩
    · simp only [getTodaysFaces, h, if_true, todaysPartition, sortByTimestampDesc]
      exact List.perm_insertionSort tsDesc _
    · simp only [getTodaysFaces, h, if_true, sortByTimestampDesc]
      exact List.sorted_insertionSort tsDesc _
  · simp [getTodaysFaces, todaysPartition, h]

/-- C10: one `addFace` call mutates at most the partition of today of the
resolved user: the attendance map of every other user, and every other date
key of every user, keeps exactly its previous value. -/
theorem claim10_addFace_frame (env : AddEnv) (rf : Option RecognizedFace)
    (ls : LocalStorage) :
    (∀ e : String, some e ≠ (resolveUserEmail ls).1 →
        ((addFace env rf ls).2).attendance e = ls.attendance e) ∧
    (∀ (e : String) (d : DayKey), d ≠ env.todayKey →
        Obj.get (((addFace env rf ls).2).attendance e) d =
          Obj.get (ls.attendance e) d) := by
  rcases addFace_spec env rf ls with ⟨_, hatt⟩ |
    ⟨f, email, hrf, hv, hue, hdup, hfst, hatt⟩
  · exact ⟨fun e _ => by rw [hatt], fun e d _ => by rw [hatt]⟩
  · constructor
    · intro e he
      have hne : e ≠ email := fun hc => he (by rw [hc, hue])
      rw [hatt]
      simp [hne]
    · intro e d hd
      rw [hatt]
      by_cases hc : e = email
      · subst hc
        simpa using Obj.get_set_ne (ls.attendance e) env.todayKey _ d hd
      · simp [hc]

/-- Witness for C10: a concrete add touches neither the map of another user
nor another date key of the same user. -/
theorem claim10_witness :
    (some "other@example.com" ≠ (resolveUserEmail lsScenario).1) ∧
    ((addFace ⟨0, 1000⟩ (some faceAlice1) lsScenario).2).attendance
        "other@example.com" =
      lsScenario.attendance "other@example.com" ∧
    Obj.get (((addFace ⟨0, 1000⟩ (some faceAlice1) lsScenario).2).attendance
        "user@example.com") 5 =
      Obj.get (lsScenario.attendance "user@example.com") 5 :=
  ⟨by decide,
   (claim10_addFace_frame ⟨0, 1000⟩ (some faceAlice1) lsScenario).1
     "other@example.com" (by decide),
   (claim10_addFace_frame ⟨0, 1000⟩ (some faceAlice1) lsScenario).2
     "user@example.com" 5 (by decide)⟩

/-- A capture environment with the webcam and screenshot available. -/
def envCapture (now : Nat) (remote : RecognizeRemote) : CaptureEnv :=
  { now := now
    webcamPresent := true
    screenshotOk := true
    remote := remote
    todayKey := 0 }

/-- A storage with a logged-in user email but no auth token. -/
def lsNoToken : LocalStorage :=
  { user := none
    user_email := some "user@example.com"
    token := none
    attendance := fun _ => [] }

/-- C4: the throttle guard denies whenever an attempt is in flight, whatever
the elapsed time, and denies whenever fewer than 10000 ms elapsed since the
last recorded attempt; after a successful attempt started at t = 0 (whose
released state is `lastAttemptAt = 0, inFlight = false`), an acquire at
t = 9999 is denied and one at t = 10000 succeeds; a failed acquire makes
`captureAndRecognize` return a denial with the throttle, the storage and the
network-call count untouched, and a successful acquire never yields a
throttle denial. -/
theorem claim4_throttle_denial (ts : ThrottleState) (now : Nat)
    (env : CaptureEnv) (ls : LocalStorage) :
    (ts.inFlight = true → tryAcquire ts now = false) ∧
    (ts.inFlight = false → (now : Int) - (ts.lastAttemptAt : Int) < 10000 →
      tryAcquire ts now = false) ∧
    tryAcquire ⟨0, false⟩ 9999 = false ∧
    tryAcquire ⟨0, false⟩ 10000 = true ∧
    (tryAcquire ts env.now = false →
      (captureAndRecognize env ts ls).outcome.isDenied = true ∧
      (captureAndRecognize env ts ls).throttle = ts ∧
      (captureAndRecognize env ts ls).store = ls ∧
      (captureAndRecognize env ts ls).netCalls = 0) ∧
    (tryAcquire ts env.now = true →
      (captureAndRecognize env ts ls).outcome ≠ CaptureOutcome.deniedInFlight ∧
      (captureAndRecognize env ts ls).outcome ≠ CaptureOutcome.deniedTooSoon) := by
  refine ⟨?_, ?_, by decide, by decide, ?_, ?_⟩
  · intro h
    simp [tryAcquire, h]
  · intro h1 h2
    simp [tryAcquire, h1, h2]
  · intro hacq
    by_cases h1 : ts.inFlight
    · simp [captureAndRecognize, h1, CaptureOutcome.isDenied]
    · have h2 : (env.now : Int) - (ts.lastAttemptAt : Int) < 10000 := by
        by_contra h2
        simp [tryAcquire, h1, h2] at hacq
      simp [captureAndRecognize, h1, h2, CaptureOutcome.isDenied]
  · intro hacq
    have h1 : ts.inFlight = false := by
      by_contra h
      have h2 : ts.inFlight = true := by simpa using h
      simp [tryAcquire, h2] at hacq
    have h2 : ¬ ((env.now : Int) - (ts.lastAttemptAt : Int) < 10000) := by
      intro h2
      simp [tryAcquire, h1, h2] at hacq
    by_cases h3 : env.webcamPresent
    · by_cases h4 : env.screenshotOk
      · by_cases h5 : jsTruthy ls.token
        · cases hr : env.remote <;>
            simp [captureAndRecognize, h1, h2, h3, h4, h5, hr]
        · simp [captureAndRecognize, h1, h2, h3, h4, h5]
      · simp [captureAndRecognize, h1, h2, h3, h4]
    · simp [captureAndRecognize, h1, h2, h3]

/-- Witness for C4: a concrete in-flight denial and a concrete
nine-second-elapsed denial. -/
theorem claim4_witness :
    tryAcquire ⟨0, true⟩ 99999 = false ∧
    tryAcquire ⟨5000, false⟩ 6000 = false :=
  ⟨(claim4_throttle_denial ⟨0, true⟩ 99999 (envCapture 0 .otherData)
      lsScenario).1 rfl,
   (claim4_throttle_denial ⟨5000, false⟩ 6000 (envCapture 0 .otherData)
      lsScenario).2.1 rfl (by decide)⟩

/-- C5: a denied attempt leaves the throttle refs exactly unchanged; every
completed attempt (success or failure) ends with the in-flight flag false;
`lastAttemptAt` is set to the start time of the attempt exactly on the
successful-submission path (an array response), and on every completed
non-success path it keeps its previous value. -/
theorem claim5_release_discipline (env : CaptureEnv) (ts : ThrottleState)
    (ls : LocalStorage) :
    ((captureAndRecognize env ts ls).outcome.isDenied = true →
      (captureAndRecognize env ts ls).throttle = ts) ∧
    ((captureAndRecognize env ts ls).outcome.isDenied = false →
      (captureAndRecognize env ts ls).throttle.inFlight = false) ∧
    (∀ n, (captureAndRecognize env ts ls).outcome = CaptureOutcome.recognized n →
      (captureAndRecognize env ts ls).throttle.lastAttemptAt = env.now) ∧
    ((captureAndRecognize env ts ls).outcome.isDenied = false →
      (∀ n, (captureAndRecognize env ts ls).outcome ≠ CaptureOutcome.recognized n) →
      (captureAndRecognize env ts ls).throttle.lastAttemptAt = ts.lastAttemptAt) := by
  by_cases h1 : ts.inFlight
  · simp [captureAndRecognize, h1, CaptureOutcome.isDenied]
  · by_cases h2 : ((env.now : Int) - (ts.lastAttemptAt : Int) < 10000)
    · simp [captureAndRecognize, h1, h2, CaptureOutcome.isDenied]
    · by_cases h3 : env.webcamPresent
      · by_cases h4 : env.screenshotOk
        · by_cases h5 : jsTruthy ls.token
          · cases hr : env.remote with
            | arrayData faces =>
              refine ⟨?_, ?_, ?_, ?_⟩ <;>
                simp [captureAndRecognize, h1, h2, h3, h4, h5, hr,
                  CaptureOutcome.isDenied]
            | otherData =>
              simp [captureAndRecognize, h1, h2, h3, h4, h5, hr,
                CaptureOutcome.isDenied]
            | httpError st msg =>
              simp [captureAndRecognize, h1, h2, h3, h4, h5, hr,
                CaptureOutcome.isDenied]
            | requestError =>
              simp [captureAndRecognize, h1, h2, h3, h4, h5, hr,
                CaptureOutcome.isDenied]
            | setupError =>
              simp [captureAndRecognize, h1, h2, h3, h4, h5, hr,
                CaptureOutcome.isDenied]
          · simp [captureAndRecognize, h1, h2, h3, h4, h5,
              CaptureOutcome.isDenied]
        · simp [captureAndRecognize, h1, h2, h3, h4, CaptureOutcome.isDenied]
      · simp [captureAndRecognize, h1, h2, h3, CaptureOutcome.isDenied]

/-- Witness for C5: a concrete successful run started at t = 20000 records
lastAttemptAt = 20000, and a concrete failed run keeps the old value. -/
theorem claim5_witness :
    (captureAndRecognize (envCapture 20000 (.arrayData [])) ⟨0, false⟩
        lsScenario).throttle.lastAttemptAt = 20000 ∧
    (captureAndRecognize (envCapture 20000 .requestError) ⟨0, false⟩
        lsScenario).throttle.lastAttemptAt = 0 :=
  ⟨(claim5_release_discipline (envCapture 20000 (.arrayData [])) ⟨0, false⟩
      lsScenario).2.2.1 0 (by decide),
   (claim5_release_discipline (envCapture 20000 .requestError) ⟨0, false⟩
      lsScenario).2.2.2 (by decide)
     (by
       intro n hcon
       have houtcome :
           (captureAndRecognize (envCapture 20000 .requestError) ⟨0, false⟩
             lsScenario).outcome = CaptureOutcome.noResponse := by decide
       rw [houtcome] at hcon
       exact CaptureOutcome.noConfusion hcon)⟩

/-- C7: with no truthy auth token in the storage, `captureAndRecognize`
makes no call to the remote recognizer (the network-call count is 0), and on
any run that passes the throttle and capture guards it short-circuits with
the unauthenticated outcome, leaving the storage unchanged. -/
theorem claim7_no_token_no_network (env : CaptureEnv) (ts : ThrottleState)
    (ls : LocalStorage) (h : jsTruthy ls.token = false) :
    (captureAndRecognize env ts ls).netCalls = 0 ∧
    (tryAcquire ts env.now = true → env.webcamPresent = true →
      env.screenshotOk = true →
      (captureAndRecognize env ts ls).outcome = CaptureOutcome.unauthenticated ∧
      (captureAndRecognize env ts ls).store = ls) := by
  by_cases h1 : ts.inFlight
  · constructor
    · simp [captureAndRecognize, h1]
    · intro hacq
      simp [tryAcquire, h1] at hacq
  · by_cases h2 : ((env.now : Int) - (ts.lastAttemptAt : Int) < 10000)
    · constructor
      · simp [captureAndRecognize, h1, h2]
      · intro hacq
        simp [tryAcquire, h1, h2] at hacq
    · by_cases h3 : env.webcamPresent
      · by_cases h4 : env.screenshotOk
        · constructor
          · simp [captureAndRecognize, h1, h2, h3, h4, h]
          · intro _ _ _
            constructor <;> simp [captureAndRecognize, h1, h2, h3, h4, h]
        · constructor
          · simp [captureAndRecognize, h1, h2, h3, h4]
          · intro _ _ hss
            exact absurd hss h4
      · constructor
        · simp [captureAndRecognize, h1, h2, h3]
        · intro _ hw
          exact absurd hw h3

/-- Witness for C7: with no token stored, a concrete run makes zero network
calls and ends unauthenticated. -/
theorem claim7_witness :
    jsTruthy lsNoToken.token = false ∧
    (captureAndRecognize (envCapture 20000 (.arrayData [])) ⟨0, false⟩
        lsNoToken).netCalls = 0 ∧
    (captureAndRecognize (envCapture 20000 (.arrayData [])) ⟨0, false⟩
        lsNoToken).outcome = CaptureOutcome.unauthenticated :=
  ⟨rfl,
   (claim7_no_token_no_network (envCapture 20000 (.arrayData [])) ⟨0, false⟩
      lsNoToken rfl).1,
   ((claim7_no_token_no_network (envCapture 20000 (.arrayData [])) ⟨0, false⟩
      lsNoToken rfl).2 (by decide) rfl rfl).1⟩

/-! ## Dedup-invariant lemmas for C1 -/

theorem noDup_addToPartition (nowTs : Nat) (f : RecognizedFace)
    (part : List Entry) (hp : PartitionNoDup part)
    (hdup : isDuplicateIn part f = false) :
    PartitionNoDup (addToPartition (mkEntry nowTs f) part) := by
  have hAll : ∀ x ∈ part, x.roll_number ≠ (mkEntry nowTs f).roll_number ∧
      x.name ≠ (mkEntry nowTs f).name := by
    intro x hx
    rw [isDuplicateIn, List.any_eq_false] at hdup
    have h2 := hdup x hx
    simp only [Bool.or_eq_true, not_or, beq_iff_eq] at h2
    exact ⟨by simpa [mkEntry] using h2.1, by simpa [mkEntry] using h2.2⟩
  have h2 : PartitionNoDup (part ++ [mkEntry nowTs f]) := by
    rw [PartitionNoDup, List.pairwise_append]
    refine ⟨hp, by simp, ?_⟩
    intro a ha b hb
    rw [List.mem_singleton] at hb
    subst hb
    exact hAll a ha
  simp only [addToPartition]
  split
  · exact h2.sublist (List.drop_sublist _ _)
  · exact h2

theorem addFace_preserves_noDup (env : AddEnv) (rf : Option RecognizedFace)
    (ls : LocalStorage) (h : StoreNoDup ls) :
    StoreNoDup ((addFace env rf ls).2) := by
  rcases addFace_spec env rf ls with ⟨_, hatt⟩ |
    ⟨f, email, hrf, hv, hue, hdup, hfst, hatt⟩
  · intro e k
    rw [hatt]
    exact h e k
  · intro e k
    simp only [hatt]
    by_cases hc : e = email
    · rw [if_pos hc]
      by_cases hk : k = env.todayKey
      · rw [hk, Obj.get_set_self]
        simp only [Option.getD_some]
        exact noDup_addToPartition env.nowTs f _ (h email env.todayKey) hdup
      · rw [Obj.get_set_ne _ _ _ _ hk]
        exact h email k
    · rw [if_neg hc]
      exact h e k

theorem addSeq_cons (day : DayKey) (c : Nat × Option RecognizedFace)
    (rest : List (Nat × Option RecognizedFace)) (ls : LocalStorage) :
    addSeq day (c :: rest) ls = addSeq day rest ((addFace ⟨day, c.1⟩ c.2 ls).2) :=
  rfl

/-- C1: over any sequence of `addFace` calls within one calendar day, every
partition keeps the no-duplicate invariant (no two entries share a roll
number and no two share a name); a call whose input collides with an
existing entry of the partition of today on either key is skipped (returns
`undefined`) and leaves every attendance map unchanged; and in the concrete
scenario, adding Alice with roll 1 and then Alice with roll 2 on the same day
skips the second call, so the list of today has length 1. -/
theorem claim1_dedup_invariant :
    (∀ (day : DayKey) (calls : List (Nat × Option RecognizedFace))
       (ls : LocalStorage),
       StoreNoDup ls → StoreNoDup (addSeq day calls ls)) ∧
    (∀ (env : AddEnv) (f : RecognizedFace) (ls : LocalStorage) (email : String),
       (resolveUserEmail ls).1 = some email →
       isDuplicateIn (((ls.attendance email).get env.todayKey).getD []) f = true →
       (addFace env (some f) ls).1 = none ∧
       ((addFace env (some f) ls).2).attendance = ls.attendance) ∧
    ((addFace ⟨0, 2000⟩ (some faceAlice2)
        ((addFace ⟨0, 1000⟩ (some faceAlice1) lsScenario).2)).1 = none ∧
     (getTodaysFaces 0
        ((addFace ⟨0, 2000⟩ (some faceAlice2)
          ((addFace ⟨0, 1000⟩ (some faceAlice1) lsScenario).2)).2)).1.length = 1) := by
  refine ⟨?_, ?_, by decide, by decide⟩
  · intro day calls
    induction calls with
    | nil => exact fun ls h => h
    | cons c rest ih =>
      intro ls h
      rw [addSeq_cons]
      exact ih _ (addFace_preserves_noDup ⟨day, c.1⟩ c.2 ls h)
  · intro env f ls email hue hdup
    rcases addFace_spec env (some f) ls with ⟨h1, h2⟩ |
      ⟨f2, email2, hrf, hv, hue2, hdup2, _, _⟩
    · exact ⟨h1, h2⟩
    · obtain rfl : f2 = f := (Option.some.inj hrf).symm
      obtain rfl : email2 = email := by
        rw [hue] at hue2
        exact (Option.some.inj hue2).symm
      rw [hdup] at hdup2
      exact absurd hdup2 (by simp)

/-- Witness for C1: the fresh scenario store satisfies the invariant, and so
does the store after the two scenario adds. -/
theorem claim1_witness :
    StoreNoDup lsScenario ∧
    StoreNoDup
      (addSeq 0 [(1000, some faceAlice1), (2000, some faceAlice2)] lsScenario) := by
  have h : StoreNoDup lsScenario := by
    intro e k
    simp [lsScenario, Obj.get, PartitionNoDup]
  exact ⟨h, claim1_dedup_invariant.1 0 _ lsScenario h⟩

/-! ## Cap lemmas for C2 -/

theorem addToPartition_length_le (e : Entry) (part : List Entry)
    (h : part.length ≤ 50) : (addToPartition e part).length ≤ 50 := by
  simp only [addToPartition]
  split
  · rename_i h2
    simp only [List.length_drop]
    omega
  · rename_i h2
    simp only [List.length_append, List.length_singleton] at h2 ⊢
    omega

theorem addToPartition_evict (e : Entry) (part : List Entry)
    (h : part.length = 50) : addToPartition e part = part.drop 1 ++ [e] := by
  cases part with
  | nil => simp at h
  | cons a t =>
    have ht : t.length = 49 := by simpa using h
    simp [addToPartition, ht]

theorem addFace_preserves_capped (env : AddEnv) (rf : Option RecognizedFace)
    (ls : LocalStorage) (h : StoreCapped ls) :
    StoreCapped ((addFace env rf ls).2) := by
  rcases addFace_spec env rf ls with ⟨_, hatt⟩ |
    ⟨f, email, hrf, hv, hue, hdup, hfst, hatt⟩
  · intro e k
    rw [hatt]
    exact h e k
  · intro e k
    simp only [hatt]
    by_cases hc : e = email
    · rw [if_pos hc]
      by_cases hk : k = env.todayKey
      · rw [hk, Obj.get_set_self]
        simp only [Option.getD_some]
        exact addToPartition_length_le _ _ (h email env.todayKey)
      · rw [Obj.get_set_ne _ _ _ _ hk]
        exact h email k
    · rw [if_neg hc]
      exact h e k

/-- What `deleteAttendance` does to the attendance maps: either nothing, or
the partition of today of the current user is filtered by roll number. -/
theorem deleteAttendance_attendance_spec (today : DayKey)
    (remote : RemoteDeleteOutcome) (roll : String) (ls : LocalStorage) :
    ((deleteAttendance today remote roll ls).2.attendance = ls.attendance) ∨
    (∃ part,
       (ls.attendance (ls.user_email.getD "")).get today = some part ∧
       (deleteAttendance today remote roll ls).2.attendance = fun x =>
         if x = ls.user_email.getD "" then
           Obj.set (ls.attendance (ls.user_email.getD "")) today
             (part.filter (fun e => e.roll_number != roll))
         else ls.attendance x) := by
  by_cases h0 : roll == ""
  · left
    simp [deleteAttendance, h0]
  · by_cases hs : (!(jsTruthy ls.user_email) || !(jsTruthy ls.token))
    · left
      simp [deleteAttendance, h0, hs]
    · cases remote with
      | throws => left; simp [deleteAttendance, h0, hs]
      | resolves s ds =>
        by_cases h2 : (ds == some "success" || s == 200)
        · cases hget : (ls.attendance (ls.user_email.getD "")).get today with
          | none => left; simp [deleteAttendance, h0, hs, h2, hget]
          | some part =>
            right
            exact ⟨part, rfl, by simp [deleteAttendance, h0, hs, h2, hget]⟩
        · left
          simp [deleteAttendance, h0, hs, h2]

theorem deleteAttendance_preserves_capped (today : DayKey)
    (remote : RemoteDeleteOutcome) (roll : String) (ls : LocalStorage)
    (h : StoreCapped ls) :
    StoreCapped ((deleteAttendance today remote roll ls).2) := by
  rcases deleteAttendance_attendance_spec today remote roll ls with hatt |
    ⟨part, hget, hatt⟩
  · intro e k
    rw [hatt]
    exact h e k
  · intro e k
    simp only [hatt]
    by_cases hc : e = ls.user_email.getD ""
    · rw [if_pos hc]
      by_cases hk : k = today
      · rw [hk, Obj.get_set_self]
        simp only [Option.getD_some]
        have h2 := h (ls.user_email.getD "") today
        rw [hget] at h2
        simp only [Option.getD_some] at h2
        exact le_trans (List.length_filter_le _ _) h2
      · rw [Obj.get_set_ne _ _ _ _ hk]
        exact h (ls.user_email.getD "") k
    · rw [if_neg hc]
      exact h e k

/-- What `cleanupOldData` does to the attendance maps: either nothing, or
the whole map of the current user is filtered by the staleness test. -/
theorem cleanupOldData_attendance_spec (nowMs daysToKeep : Nat)
    (ls : LocalStorage) :
    ((cleanupOldData nowMs daysToKeep ls).2.attendance = ls.attendance) ∨
    (jsTruthy ls.user_email = true ∧
     (cleanupOldData nowMs daysToKeep ls).2.attendance = fun x =>
       if x = ls.user_email.getD "" then
         (ls.attendance (ls.user_email.getD "")).filter
           (fun p => !(staleDay nowMs daysToKeep p.1))
       else ls.attendance x) := by
  by_cases h : jsTruthy ls.user_email
  · right
    exact ⟨h, by simp [cleanupOldData, h]⟩
  · left
    simp [cleanupOldData, h]

theorem cleanupOldData_preserves_capped (nowMs daysToKeep : Nat)
    (ls : LocalStorage) (h : StoreCapped ls) :
    StoreCapped ((cleanupOldData nowMs daysToKeep ls).2) := by
  rcases cleanupOldData_attendance_spec nowMs daysToKeep ls with hatt | ⟨_, hatt⟩
  · intro e k
    rw [hatt]
    exact h e k
  · intro e k
    simp only [hatt]
    by_cases hc : e = ls.user_email.getD ""
    · rw [if_pos hc, Obj.get_filter_stale]
      by_cases hk : staleDay nowMs daysToKeep k
      · rw [if_pos hk]
        simp
      · rw [if_neg hk]
        exact h (ls.user_email.getD "") k
    · rw [if_neg hc]
      exact h e k

/-- C2: every store operation keeps all partitions at 50 entries or fewer
(`addFace` by truncation, deletion and purge only shrink), and a valid
non-duplicate `addFace` into a partition of exactly 50 entries evicts
exactly the oldest entry by insertion order, keeping the most recent 50. -/
theorem claim2_partition_cap :
    (∀ (env : AddEnv) (rf : Option RecognizedFace) (ls : LocalStorage),
       StoreCapped ls → StoreCapped ((addFace env rf ls).2)) ∧
    (∀ (today : DayKey) (remote : RemoteDeleteOutcome) (roll : String)
       (ls : LocalStorage),
       StoreCapped ls → StoreCapped ((deleteAttendance today remote roll ls).2)) ∧
    (∀ (nowMs daysToKeep : Nat) (ls : LocalStorage),
       StoreCapped ls → StoreCapped ((cleanupOldData nowMs daysToKeep ls).2)) ∧
    (∀ (env : AddEnv) (f : RecognizedFace) (ls : LocalStorage) (email : String)
       (part : List Entry),
       (resolveUserEmail ls).1 = some email →
       (ls.attendance email).get env.todayKey = some part →
       part.length = 50 →
       validAddInput (some f) = true →
       isDuplicateIn part f = false →
       Obj.get (((addFace env (some f) ls).2).attendance email) env.todayKey =
         some (part.drop 1 ++ [mkEntry env.nowTs f])) := by
  refine ⟨addFace_preserves_capped, deleteAttendance_preserves_capped,
    cleanupOldData_preserves_capped, ?_⟩
  intro env f ls email part hue hget hlen hv hdup
  have htrue := resolveUserEmail_truthy ls email hue
  have hatt := resolveUserEmail_attendance ls
  have hred : ((addFace env (some f) ls).2).attendance email =
      Obj.set (ls.attendance email) env.todayKey
        (addToPartition (mkEntry env.nowTs f) part) := by
    simp [addFace, hv, hue, htrue, hatt, hget, hdup]
  rw [hred, Obj.get_set_self, addToPartition_evict _ _ hlen]

/-- A concrete full partition of 50 pairwise distinct entries. -/
def bigPartition : List Entry :=
  (List.range 50).map (fun i =>
    { name := toString i, roll_number := toString i, timestamp := i,
      confidence := 0, status := "Recognized" })

/-- A storage whose partition of day 0 is full. -/
def lsFull : LocalStorage :=
  { user := none
    user_email := some "user@example.com"
    token := some "tok"
    attendance := fun _ => [(0, bigPartition)] }

/-- A valid input colliding with nothing in `bigPartition`. -/
def faceZed : RecognizedFace :=
  { name := some "Zed", roll_number := some "Z1", confidence := none,
    status := none }

/-- Witness for C2: adding a 51st valid entry to a concrete full partition
evicts exactly the first entry. -/
theorem claim2_witness :
    bigPartition.length = 50 ∧
    Obj.get (((addFace ⟨0, 999⟩ (some faceZed) lsFull).2).attendance
        "user@example.com") 0 =
      some (bigPartition.drop 1 ++ [mkEntry 999 faceZed]) :=
  ⟨by decide,
   claim2_partition_cap.2.2.2 ⟨0, 999⟩ faceZed lsFull "user@example.com"
     bigPartition (by decide) (by decide) (by decide) (by decide) (by decide)⟩

/-! ## C6: retention purge -/

/-- C6 as amended: `cleanupOldData` deletes exactly the day partitions whose
date precedes now minus the retention window, leaves every other binding (of
this and of every other user) unchanged, does nothing without a user email,
removes a partition dated exactly 8 days ago while keeping one dated exactly
6 days ago, and always returns `undefined` rather than the removal count. -/
theorem claim6_purge_behaviour :
    (∀ (nowMs daysToKeep : Nat) (ls : LocalStorage),
       (cleanupOldData nowMs daysToKeep ls).1 = none) ∧
    (∀ (nowMs daysToKeep : Nat) (ls : LocalStorage),
       jsTruthy ls.user_email = false →
       cleanupOldData nowMs daysToKeep ls = (none, ls)) ∧
    (∀ (nowMs daysToKeep : Nat) (ls : LocalStorage) (e : String),
       jsTruthy ls.user_email = true → e ≠ ls.user_email.getD "" →
       ((cleanupOldData nowMs daysToKeep ls).2).attendance e = ls.attendance e) ∧
    (∀ (nowMs daysToKeep : Nat) (ls : LocalStorage) (d : DayKey),
       jsTruthy ls.user_email = true →
       Obj.get (((cleanupOldData nowMs daysToKeep ls).2).attendance
           (ls.user_email.getD "")) d =
         if staleDay nowMs daysToKeep d then none
         else Obj.get (ls.attendance (ls.user_email.getD "")) d) ∧
    (∀ (todayMid frac : Nat), frac < msPerDay → 8 * msPerDay ≤ todayMid →
       staleDay (todayMid + frac) 7 (todayMid - 8 * msPerDay) = true ∧
       staleDay (todayMid + frac) 7 (todayMid - 6 * msPerDay) = false) := by
  refine ⟨?_, ?_, ?_, ?_, ?_⟩
  · intro nowMs daysToKeep ls
    by_cases h : jsTruthy ls.user_email <;> simp [cleanupOldData, h]
  · intro nowMs daysToKeep ls h
    simp [cleanupOldData, h]
  · intro nowMs daysToKeep ls e h hne
    simp [cleanupOldData, h, hne]
  · intro nowMs daysToKeep ls d h
    have hred : ((cleanupOldData nowMs daysToKeep ls).2).attendance
        (ls.user_email.getD "") =
        (ls.attendance (ls.user_email.getD "")).filter
          (fun p => !(staleDay nowMs daysToKeep p.1)) := by
      simp [cleanupOldData, h]
    rw [hred, Obj.get_filter_stale]
  · intro todayMid frac h1 h2
    simp only [msPerDay] at h1 h2
    constructor
    · simp only [staleDay, msPerDay, decide_eq_true_eq]
      omega
    · simp only [staleDay, msPerDay]
      rw [decide_eq_false_iff_not]
      omega

/-- An arbitrary stored entry used in the purge counterexample. -/
def entrySample : Entry :=
  { name := "A", roll_number := "1", timestamp := 0, confidence := 0,
    status := "Recognized" }

/-- A storage holding one partition dated 8 days before day 10 and one dated
6 days before day 10. -/
def lsOldData : LocalStorage :=
  { user := none
    user_email := some "user@example.com"
    token := some "tok"
    attendance := fun _ =>
      [(2 * msPerDay, [entrySample]), (4 * msPerDay, [entrySample])] }

/-- Counterexample for C6 as stated: at a concrete input the purge removes
exactly one partition (the 8-day-old one) but returns `undefined`, not the
count 1 that the claim promises. -/
theorem claim6_counterexample :
    (Obj.keys (lsOldData.attendance "user@example.com")).length = 2 ∧
    (Obj.keys (((cleanupOldData (10 * msPerDay + 5000) 7 lsOldData).2).attendance
        "user@example.com")).length = 1 ∧
    (cleanupOldData (10 * msPerDay + 5000) 7 lsOldData).1 = none ∧
    (cleanupOldData (10 * msPerDay + 5000) 7 lsOldData).1 ≠ some 1 := by
  decide

/-- Witness for C6 as amended: a concrete purge at day 10 with a 7-day
window removes the partition dated 8 days earlier and keeps the one dated 6
days earlier, and returns `undefined`. -/
theorem claim6_witness :
    (cleanupOldData (10 * msPerDay + 5000) 7 lsOldData).1 = none ∧
    (staleDay (10 * msPerDay + 5000) 7 (10 * msPerDay - 8 * msPerDay) = true ∧
     staleDay (10 * msPerDay + 5000) 7 (10 * msPerDay - 6 * msPerDay) = false) ∧
    Obj.get (((cleanupOldData (10 * msPerDay + 5000) 7 lsOldData).2).attendance
        (lsOldData.user_email.getD "")) (2 * msPerDay) =
      (if staleDay (10 * msPerDay + 5000) 7 (2 * msPerDay) then none
       else Obj.get (lsOldData.attendance (lsOldData.user_email.getD ""))
           (2 * msPerDay)) :=
  ⟨claim6_purge_behaviour.1 (10 * msPerDay + 5000) 7 lsOldData,
   claim6_purge_behaviour.2.2.2.2 (10 * msPerDay) 5000 (by decide) (by decide),
   claim6_purge_behaviour.2.2.2.1 (10 * msPerDay + 5000) 7 lsOldData
     (2 * msPerDay) (by decide)⟩
